import Mathlib

/-!
Verification of `processor_worker.py` (sorastudio-worker).

The file shallowly embeds the worker's data model and operations:
JSON-like Python values, the Redis store as an association list,
the task handlers, the dispatcher `process_video_task`, the status
recorder `update_task_status`, and one pass of the `run_worker` loop.
External collaborators (ffmpeg, the filesystem, wall-clock time) are
passed in as explicit parameters; everything the worker itself computes
is translated from the source.
-/

/-- JSON-like Python values, as produced by `json.loads` and manipulated by
the worker. Floats only ever occur in this code as stored literals
(`0.95`, `time.time()` results); no float arithmetic happens, so they are
carried exactly as rationals. -/
inductive Value where
  | vnull
  | vbool (b : Bool)
  | vint (n : Int)
  | vfloat (q : Rat)
  | vstr (s : String)
  | vlist (xs : List Value)
  | vdict (fields : List (String × Value))

/-- Python `repr` of a value (as used when a non-string value is interpolated
into an f-string inside a container). String escaping and float formatting
are not reproduced; no modeled code path formats a float or a string that
needs escaping. -/
def pyRepr : Value → String
  | .vnull => "None"
  | .vbool true => "True"
  | .vbool false => "False"
  | .vint n => toString n
  | .vfloat q => toString q
  | .vstr s => "'" ++ s ++ "'"
  | .vlist xs => "[" ++ String.intercalate ", " (xs.attach.map (fun x => pyRepr x.1)) ++ "]"
  | .vdict ps =>
      "\x7b" ++
        String.intercalate ", "
          (ps.attach.map (fun p => "'" ++ p.1.1 ++ "': " ++ pyRepr p.1.2)) ++
      "\x7d"
decreasing_by
  · have h := List.sizeOf_lt_of_mem x.2
    simp only [Value.vlist.sizeOf_spec]
    omega
  · have h := List.sizeOf_lt_of_mem p.2
    have h2 : sizeOf p.1.2 < sizeOf p.1 := by
      obtain ⟨a, b⟩ := p.1
      simp only [Prod.mk.sizeOf_spec]
      omega
    simp only [Value.vdict.sizeOf_spec]
    omega

/-- Python `str` of a value, as interpolated by an f-string: strings appear
verbatim, everything else uses `repr`-like rendering (`None`, `True`, ...). -/
def pyStr : Value → String
  | .vstr s => s
  | v => pyRepr v

/-- Python truthiness (`if not raw`, `if not input_path`, `if result["success"]`). -/
def pyTruthy : Value → Bool
  | .vnull => false
  | .vbool b => b
  | .vint n => n != 0
  | .vfloat q => q != 0
  | .vstr s => s != ""
  | .vlist xs => !xs.isEmpty
  | .vdict ps => !ps.isEmpty

/-- Python `==` between a value and a string literal (`task_type == 'video_generation'`):
true exactly when the value is that string. -/
def pyEqStr (v : Value) (s : String) : Bool :=
  match v with
  | .vstr t => t == s
  | _ => false

/-- Lookup in a Python dict, modeled as an insertion-ordered association list. -/
def dlookup (d : List (String × Value)) (k : String) : Option Value :=
  (d.find? (fun p => p.1 == k)).map (fun p => p.2)

/-- Value of `d.get(k)` on a dict `d`: the entry, or `None` when absent. -/
def dGet (d : List (String × Value)) (k : String) : Value :=
  (dlookup d k).getD .vnull

/-- Python exceptions raised by the worker's code paths. -/
inductive PyError where
  | valueError (msg : String)
  | keyError (key : String)
  | fileNotFoundError (msg : String)
  | typeError (msg : String)
  | nameError (msg : String)
  | attributeError (msg : String)
  | jsonDecodeError (doc : String)
deriving DecidableEq

/-- Python `str(e)` of an exception, as stored in the `error` field by the
`except` branch (line 48). `str` of a `KeyError` is the repr of its key. -/
def strOfErr : PyError → String
  | .valueError m => m
  | .keyError k => "'" ++ k ++ "'"
  | .fileNotFoundError m => m
  | .typeError m => m
  | .nameError m => m
  | .attributeError m => m
  | .jsonDecodeError m => m

/-- Python `x.get(k)` where `x` is an arbitrary value: succeeds on dicts
(defaulting to `None`), raises `AttributeError` otherwise (lines 20-21 run
on whatever `json.loads` returned). -/
def pyGetAttr (v : Value) (k : String) : Except PyError Value :=
  match v with
  | .vdict d => .ok ((dlookup d k).getD .vnull)
  | _ => .error (.attributeError ("object has no attribute 'get': " ++ k))

/-- Python `x.get(k, default)`. -/
def pyGetAttrD (v : Value) (k : String) (dflt : Value) : Except PyError Value :=
  match v with
  | .vdict d => .ok ((dlookup d k).getD dflt)
  | _ => .error (.attributeError ("object has no attribute 'get': " ++ k))

/-- Python `x[k]` with a string key (`result["success"]`): a dict lookup that
raises `KeyError` when the key is absent, `TypeError` on non-dicts. -/
def pySubscript (v : Value) (k : String) : Except PyError Value :=
  match v with
  | .vdict d =>
      match dlookup d k with
      | some x => .ok x
      | none => .error (.keyError k)
  | _ => .error (.typeError ("value is not subscriptable with key " ++ k))

/-- Python `x[:50]` (line 138): slices strings and lists, raises `TypeError`
on non-sliceable values. -/
def pySliceTo50 : Value → Except PyError Value
  | .vstr s => .ok (.vstr (s.take 50))
  | .vlist xs => .ok (.vlist (xs.take 50))
  | _ => .error (.typeError "object is not subscriptable by a slice")

/-- The filesystem is an external collaborator: the set of existing paths.
`os.path.exists` on a non-string argument is modeled as `false` (the worker
never reaches it with a falsy value because of the short-circuit guard, and
file-descriptor semantics for integer arguments are out of scope). -/
def os_path_exists (fs : List String) (v : Value) : Bool :=
  match v with
  | .vstr p => fs.contains p
  | _ => false

/-- A Redis string value, classified by what `json.loads` would do with it:
`ok v` stands for a string that decodes to the value `v`, `bad s` for a
string `s` that raises `json.JSONDecodeError` (the empty string is one such).
`json.loads` itself is an external library function; the classification is
the only property of a stored string the worker observes. -/
inductive StoredStr where
  | ok (v : Value)
  | bad (s : String)

/-- Python truthiness of a fetched Redis string (`if not raw`): only the
empty string is falsy, and any string that decodes as JSON is nonempty. -/
def storedTruthy : StoredStr → Bool
  | .ok _ => true
  | .bad s => s != ""

/-- The Redis store: keys with their string value and optional TTL, in
enumeration order (`KEYS` is unordered in Redis; the list order stands for
the order the scan happens to receive). -/
abbrev Store := List (String × StoredStr × Option Nat)

/-- Redis `GET`. -/
def storeGet (s : Store) (k : String) : Option StoredStr :=
  (s.find? (fun e => e.1 == k)).map (fun e => e.2.1)

/-- TTL recorded for a key (`none` result: key absent). -/
def storeTTLOf (s : Store) (k : String) : Option (Option Nat) :=
  (s.find? (fun e => e.1 == k)).map (fun e => e.2.2)

/-- Redis `DELETE`. -/
def storeDel (s : Store) (k : String) : Store :=
  s.filter (fun e => e.1 != k)

/-- Redis `SETEX`: write a value with a TTL, replacing any previous entry. -/
def storeSetex (s : Store) (k : String) (ttl : Nat) (v : StoredStr) : Store :=
  (k, v, some ttl) :: storeDel s k

/-- Character-level prefix test (the glob `pending_task:*` matches exactly
the keys beginning with `pending_task:`). -/
def strBeginsWith (s p : String) : Bool :=
  p.data.isPrefixOf s.data

/-- Redis `KEYS pat*`: keys matching a prefix, in enumeration order. -/
def storeKeysMatching (s : Store) (p : String) : List String :=
  (s.filter (fun e => strBeginsWith e.1 p)).map (fun e => e.1)

theorem pyRepr_vnull : pyRepr .vnull = "None" := by
  simp [pyRepr]

theorem pyStr_vnull : pyStr .vnull = "None" := by
  simp [pyStr, pyRepr_vnull]

theorem pyStr_vstr (s : String) : pyStr (.vstr s) = s := rfl

example : dGet [("type", .vstr "bogus")] "task_id" = .vnull := rfl
example : storeGet [("k", .bad "x", none)] "k" = some (.bad "x") := rfl
example : storeKeysMatching [("pending_task:a", .bad "", none), ("task:a", .bad "", none)]
    "pending_task:" = ["pending_task:a"] := rfl

/-! ## Task handlers (processor_worker.py lines 50-194) -/

/-- `generate_video_with_sora` (lines 50-72): reads `prompt`, `style`,
`duration` with defaults (they feed the log line / the result), sleeps
(no observable effect here), and returns a mock result dict. The two
`task_data.get("task_id")` calls in the f-strings yield the same value. -/
def generate_video_with_sora (td : Value) : Except PyError Value := do
  let _prompt ← pyGetAttrD td "prompt" (.vstr "")
  let _style ← pyGetAttrD td "style" (.vstr "cinematic")
  let duration ← pyGetAttrD td "duration" (.vint 5)
  let tid ← pyGetAttr td "task_id"
  pure (.vdict
    [("video_url", .vstr ("/generated/" ++ pyStr tid ++ ".mp4")),
     ("thumbnail_url", .vstr ("/thumbnails/" ++ pyStr tid ++ ".jpg")),
     ("duration", duration),
     ("resolution", .vstr "1920x1080"),
     ("format", .vstr "mp4")])

/-- `analyze_video_style` (lines 74-128): raises `FileNotFoundError` when
`video_path` is falsy or does not exist. The body past that guard uses
`cv2`, a module `processor_worker.py` never imports, so reaching it raises
`NameError` before any frame is read. -/
def analyze_video_style (fs : List String) (td : Value) : Except PyError Value := do
  let video_path ← pyGetAttr td "video_path"
  if !pyTruthy video_path || !os_path_exists fs video_path then
    Except.error (.fileNotFoundError ("视频文件不存在: " ++ pyStr video_path))
  else
    Except.error (.nameError "name 'cv2' is not defined")

/-- `generate_digital_human_video` (lines 130-149): reads `script` (default
`''`) and `avatar_image`, formats `script[:50]` for the log (which raises
`TypeError` when `script` is not sliceable), sleeps, and returns a mock
result dict. -/
def generate_digital_human_video (td : Value) : Except PyError Value := do
  let script ← pyGetAttrD td "script" (.vstr "")
  let _avatar ← pyGetAttr td "avatar_image"
  let _ ← pySliceTo50 script
  let tid ← pyGetAttr td "task_id"
  pure (.vdict
    [("video_url", .vstr ("/digital_human/" ++ pyStr tid ++ ".mp4")),
     ("audio_url", .vstr ("/audio/" ++ pyStr tid ++ ".wav")),
     ("lip_sync_score", .vfloat ((19 : Rat) / 20)),
     ("processing_time", .vint 10)])

/-- `process_video_file` (lines 151-194): raises `FileNotFoundError` when
`input_path` is falsy or does not exist; otherwise runs one of the ffmpeg
branches — ffmpeg is an external collaborator, modeled as succeeding with
no observable effect (its extra `task_data.get` reads cannot raise once
`td` is known to be a dict) — and returns the result dict. An unknown
`operation` takes no branch and still returns the dict. `now` stands for
the `time.time()` read in `processed_at`. -/
def process_video_file (fs : List String) (now : Rat) (td : Value) :
    Except PyError Value := do
  let operation ← pyGetAttrD td "operation" (.vstr "slice")
  let input_path ← pyGetAttr td "input_path"
  let output_path ← pyGetAttr td "output_path"
  if !pyTruthy input_path || !os_path_exists fs input_path then
    Except.error (.fileNotFoundError ("输入文件不存在: " ++ pyStr input_path))
  else do
    if pyEqStr operation "slice" then do
      let _start_time ← pyGetAttrD td "start_time" (.vint 0)
      let _duration ← pyGetAttrD td "duration" (.vint 10)
      pure ()
    else if pyEqStr operation "merge" then do
      let _inputs ← pyGetAttrD td "inputs" (.vlist [])
      pure ()
    else if pyEqStr operation "add_watermark" then do
      let _watermark_path ← pyGetAttr td "watermark_path"
      pure ()
    else
      pure ()
    pure (.vdict
      [("output_path", output_path),
       ("operation", operation),
       ("processed_at", .vfloat now)])

/-! ## Dispatcher and status recorder (lines 13-48 and 196-209) -/

/-- One status write requested through `update_task_status`: the call's
arguments, before the timestamp is attached. -/
structure StatusWrite where
  task_id : Value
  status : String
  progress : Nat
  result : Option Value
  error : Option Value

/-- The Status Record dict built by `update_task_status` (lines 197-207):
`result` and `error` entries are present only when the arguments are not
`None`. -/
structure StatusRecord where
  task_id : Value
  status : String
  progress : Nat
  timestamp : Rat
  result : Option Value
  error : Option Value

/-- Lines 197-207: assemble the record from the call's arguments and the
current time. -/
def mk_status_data (task_id : Value) (status : String) (progress : Nat)
    (result : Option Value) (error : Option Value) (now : Rat) : StatusRecord :=
  ⟨task_id, status, progress, now, result, error⟩

/-- The dict that `json.dumps` serializes on line 209, entries in insertion
order, `result`/`error` included only when present. -/
def status_data_json (rec : StatusRecord) : Value :=
  .vdict
    ([("task_id", rec.task_id),
      ("status", .vstr rec.status),
      ("progress", .vint rec.progress),
      ("timestamp", .vfloat rec.timestamp)] ++
     (match rec.result with
      | some r => [("result", r)]
      | none => []) ++
     (match rec.error with
      | some e => [("error", e)]
      | none => []))

/-- `update_task_status` (lines 196-209): build the record at the current
time and `SETEX` it under `task:<task_id>` with TTL 3600, unconditionally
replacing any previous entry. The key interpolates `task_id` with `str`. -/
def update_task_status (now : Rat) (store : Store) (task_id : Value)
    (status : String) (progress : Nat) (result : Option Value)
    (error : Option Value) : Store :=
  storeSetex store ("task:" ++ pyStr task_id) 3600
    (.ok (status_data_json (mk_status_data task_id status progress result error now)))

/-- Lines 24-37 of `process_video_task`: route on `task_type` by exact
string comparison; the `else` branch raises
`ValueError(f"未知任务类型: {task_type}")`. -/
def process_video_task_dispatch (fs : List String) (now : Rat) (td : Value)
    (task_type : Value) : Except PyError Value :=
  if pyEqStr task_type "video_generation" then generate_video_with_sora td
  else if pyEqStr task_type "video_analysis" then analyze_video_style fs td
  else if pyEqStr task_type "digital_human" then generate_digital_human_video td
  else if pyEqStr task_type "video_processing" then process_video_file fs now td
  else Except.error (.valueError ("未知任务类型: " ++ pyStr task_type))

/-- Lines 39-44 of `process_video_task`, applied to a handler result that
returned normally: `result["success"]` decides between the completed write
(line 40, which also subscripts `result["data"]`) and the failed write
(line 43, subscripting `result["error"]`); a `KeyError` from any of the
three subscripts falls to the `except` on line 46 and is recorded as a
failed status with `str(e)` as the error. -/
def process_video_task_result (task_id result : Value) : List StatusWrite :=
  match pySubscript result "success" with
  | .error e => [⟨task_id, "failed", 0, none, some (.vstr (strOfErr e))⟩]
  | .ok s =>
    if pyTruthy s then
      match pySubscript result "data" with
      | .error e => [⟨task_id, "failed", 0, none, some (.vstr (strOfErr e))⟩]
      | .ok d => [⟨task_id, "completed", 100, some d, none⟩]
    else
      match pySubscript result "error" with
      | .error e => [⟨task_id, "failed", 0, none, some (.vstr (strOfErr e))⟩]
      | .ok errv => [⟨task_id, "failed", 0, none, some errv⟩]

/-- The `try`/`except` body of `process_video_task` (lines 23-48): any
exception out of the dispatch or the result subscripts is caught on line 46
and recorded as a failed status with `str(e)` as the error. Every branch
issues exactly one `update_task_status` call. -/
def process_video_task_try (fs : List String) (now : Rat) (td : Value)
    (task_type task_id : Value) : List StatusWrite :=
  match process_video_task_dispatch fs now td task_type with
  | .error e => [⟨task_id, "failed", 0, none, some (.vstr (strOfErr e))⟩]
  | .ok result => process_video_task_result task_id result

/-- `process_video_task` (lines 13-48). The `task_data.get` reads on lines
20-21 happen *before* the `try`, so a non-dict task payload raises out of
the function; everything else is caught and the function returns the list
of status writes it performed (always exactly one). -/
def process_video_task (fs : List String) (now : Rat) (td : Value) :
    Except PyError (List StatusWrite) := do
  let task_type ← pyGetAttr td "type"
  let task_id ← pyGetAttr td "task_id"
  pure (process_video_task_try fs now td task_type task_id)

/-! ## The worker loop (lines 216-236) -/

/-- Events observable during one scan pass, in program order. -/
inductive Event where
  | del (key : String)
  | dispatch (td : Value)
  | statusWrite (w : StatusWrite)

/-- Apply a dispatcher's status writes to the store in order, each through
`update_task_status`. -/
def apply_status_writes (now : Rat) (store : Store) (ws : List StatusWrite) : Store :=
  ws.foldl (fun s w => update_task_status now s w.task_id w.status w.progress w.result w.error) store

/-- Line 231 calls a global name `process_task`. Python resolves it in the
module's globals at call time, so the loop body's meaning is parameterized
by that binding: `some f` when the name is bound to a dispatcher, `none`
when it is unbound (calling it raises `NameError`). -/
abbrev Ptask := Option (Value → Except PyError (List StatusWrite))

/-- In `processor_worker.py` no definition named `process_task` exists (the
dispatcher is `process_video_task`), so the name is unbound. -/
def the_process_task : Ptask := none

/-- The `for key in task_keys` loop of `run_worker` (lines 222-231), over
the key list the initial `KEYS` call returned. For each key: `GET`; a
missing or empty value is deleted and skipped (lines 224-226); a value that
fails `json.loads` raises, aborting the pass with the key still present
(line 228 runs before the delete on line 229); a parsed value has its key
deleted and is then handed to `process_task`. An exception anywhere aborts
the remainder of the pass; the returned `Option PyError` is the exception
that escaped to the `except` on line 233, with the store as mutated so far. -/
def scanKeys (ptask : Ptask) (now : Rat) :
    Store → List String → Store × List Event × Option PyError
  | store, [] => (store, [], none)
  | store, k :: ks =>
    match storeGet store k with
    | none =>
      let s1 := storeDel store k
      let r := scanKeys ptask now s1 ks
      (r.1, .del k :: r.2.1, r.2.2)
    | some sv =>
      if storedTruthy sv = false then
        let s1 := storeDel store k
        let r := scanKeys ptask now s1 ks
        (r.1, .del k :: r.2.1, r.2.2)
      else
        match sv with
        | .bad s => (store, [], some (.jsonDecodeError s))
        | .ok v =>
          let s1 := storeDel store k
          match ptask with
          | none => (s1, [.del k], some (.nameError "name 'process_task' is not defined"))
          | some f =>
            match f v with
            | .error e => (s1, [.del k, .dispatch v], some e)
            | .ok ws =>
              let s2 := apply_status_writes now s1 ws
              let r := scanKeys ptask now s2 ks
              (r.1, .del k :: .dispatch v :: (ws.map .statusWrite ++ r.2.1), r.2.2)

/-- One try-block body of the `while True` loop (lines 220-231): enumerate
the pending keys, then run the scan over them. -/
def run_worker_scan (ptask : Ptask) (now : Rat) (store : Store) :
    Store × List Event × Option PyError :=
  scanKeys ptask now store (storeKeysMatching store "pending_task:")

/-- One scan pass of this module's `run_worker`, with `process_task` unbound
as in the source. -/
def run_worker_pass (now : Rat) (store : Store) : Store × List Event × Option PyError :=
  run_worker_scan the_process_task now store

/-- One full iteration of the `while True` loop (lines 219-236): the scan's
escaped exception, if any, is caught by `except Exception` and only logged;
then `time.sleep(1)` runs unconditionally. The second component is the
seconds slept. -/
def run_worker_iteration (ptask : Ptask) (now : Rat) (store : Store) :
    (Store × List Event × Option PyError) × Nat :=
  (run_worker_scan ptask now store, 1)

/-- The seconds slept over the first `n` iterations of the loop, threading
the store through. -/
def run_worker_sleeps (ptask : Ptask) (now : Rat) : Nat → Store → List Nat
  | 0, _ => []
  | n + 1, store =>
    (run_worker_iteration ptask now store).2 ::
      run_worker_sleeps ptask now n (run_worker_iteration ptask now store).1.1

example : process_video_task [] 0 (.vdict [("task_id", .vstr "t9"), ("type", .vstr "bogus")]) =
    .ok [⟨.vstr "t9", "failed", 0, none, some (.vstr "未知任务类型: bogus")⟩] := rfl

/-! ## Helper lemmas -/

/-- On a dict payload the two `task_data.get` reads of lines 20-21 succeed and
`process_video_task` returns its try-block's writes. -/
theorem process_video_task_vdict (fs : List String) (now : Rat) (d : List (String × Value)) :
    process_video_task fs now (.vdict d) =
      .ok (process_video_task_try fs now (.vdict d) (dGet d "type") (dGet d "task_id")) := rfl

/-- Every branch of lines 39-46 performs exactly one status write keyed by
the given `task_id`. -/
theorem process_result_single (tid result : Value) :
    ∃ w : StatusWrite, process_video_task_result tid result = [w] ∧ w.task_id = tid := by
  unfold process_video_task_result
  split
  · exact ⟨_, rfl, rfl⟩
  · split
    · split
      · exact ⟨_, rfl, rfl⟩
      · exact ⟨_, rfl, rfl⟩
    · split
      · exact ⟨_, rfl, rfl⟩
      · exact ⟨_, rfl, rfl⟩

/-- Every branch of the try-block performs exactly one status write, and it
is keyed by the `task_id` read on line 21. -/
theorem process_try_single (fs : List String) (now : Rat) (td tt tid : Value) :
    ∃ w : StatusWrite, process_video_task_try fs now td tt tid = [w] ∧ w.task_id = tid := by
  unfold process_video_task_try
  split
  · exact ⟨_, rfl, rfl⟩
  · exact process_result_single _ _

/-- A dispatch that raises is recorded by the `except` branch as the single
failed write carrying `str(e)`. -/
theorem try_dispatch_error (fs : List String) (now : Rat) (td tt tid : Value) (e : PyError)
    (h : process_video_task_dispatch fs now td tt = .error e) :
    process_video_task_try fs now td tt tid =
      [⟨tid, "failed", 0, none, some (.vstr (strOfErr e))⟩] := by
  unfold process_video_task_try
  rw [h]

/-- A dispatch that returns normally hands its result to lines 39-44. -/
theorem try_dispatch_ok (fs : List String) (now : Rat) (td tt tid r : Value)
    (h : process_video_task_dispatch fs now td tt = .ok r) :
    process_video_task_try fs now td tt tid = process_video_task_result tid r := by
  unfold process_video_task_try
  rw [h]

/-- A handler result without a `success` key is recorded as a failed write
with error `str(KeyError('success'))`, i.e. `'success'`. -/
theorem result_no_success_key (tid r : Value)
    (h : pySubscript r "success" = .error (.keyError "success")) :
    process_video_task_result tid r =
      [⟨tid, "failed", 0, none, some (.vstr "'success'")⟩] := by
  unfold process_video_task_result
  rw [h]
  rfl

/-- A store entry with a different key does not affect `GET`. -/
theorem storeGet_cons_ne (e : String × StoredStr × Option Nat) (s : Store) (k : String)
    (hek : ¬(e.1 == k) = true) : storeGet (e :: s) k = storeGet s k := by
  have hek' : (e.1 == k) = false := by simpa using hek
  simp [storeGet, hek']

/-- A store entry with the matching key is what `GET` returns. -/
theorem storeGet_cons_eq (e : String × StoredStr × Option Nat) (s : Store) (k : String)
    (hek : (e.1 == k) = true) : storeGet (e :: s) k = some e.2.1 := by
  simp [storeGet, hek]

/-- Deleting one key leaves every other key's entry unchanged. -/
theorem storeGet_storeDel_ne (s : Store) (k key : String) (h : k ≠ key) :
    storeGet (storeDel s key) k = storeGet s k := by
  induction s with
  | nil => rfl
  | cons e rest ih =>
    by_cases hek : (e.1 == k) = true
    · have hkey : (e.1 != key) = true := by
        have he : e.1 = k := by simpa using hek
        simpa [he] using h
      rw [storeDel, List.filter_cons, if_pos hkey]
      rw [storeGet_cons_eq _ _ _ hek, storeGet_cons_eq _ _ _ hek]
    · rw [storeGet_cons_ne _ _ _ hek]
      by_cases hkey : (e.1 != key) = true
      · rw [storeDel, List.filter_cons, if_pos hkey, storeGet_cons_ne _ _ _ hek]
        exact ih
      · rw [storeDel, List.filter_cons, if_neg hkey]
        exact ih

/-- Evaluation of `generate_video_with_sora` on a dict payload. -/
theorem sora_vdict (d : List (String × Value)) :
    generate_video_with_sora (.vdict d) = .ok (.vdict
      [("video_url", .vstr ("/generated/" ++ pyStr (dGet d "task_id") ++ ".mp4")),
       ("thumbnail_url", .vstr ("/thumbnails/" ++ pyStr (dGet d "task_id") ++ ".jpg")),
       ("duration", (dlookup d "duration").getD (.vint 5)),
       ("resolution", .vstr "1920x1080"),
       ("format", .vstr "mp4")]) := rfl

/-- Evaluation of `generate_digital_human_video` on a dict payload: the
result depends only on whether the `script[:50]` slice succeeds. -/
theorem dh_vdict (d : List (String × Value)) :
    generate_digital_human_video (.vdict d) =
      (pySliceTo50 ((dlookup d "script").getD (.vstr ""))).bind (fun _ => .ok (.vdict
        [("video_url", .vstr ("/digital_human/" ++ pyStr (dGet d "task_id") ++ ".mp4")),
         ("audio_url", .vstr ("/audio/" ++ pyStr (dGet d "task_id") ++ ".wav")),
         ("lip_sync_score", .vfloat ((19 : Rat) / 20)),
         ("processing_time", .vint 10)])) := rfl

/-- The mock result of `generate_video_with_sora` contains neither a
`success` nor a `data` key. -/
theorem sora_result_keys (td r : Value) (h : generate_video_with_sora td = .ok r) :
    pySubscript r "success" = .error (.keyError "success") ∧
    pySubscript r "data" = .error (.keyError "data") := by
  cases td with
  | vdict d =>
    rw [sora_vdict] at h
    cases h
    exact ⟨rfl, rfl⟩
  | vnull => exact Except.noConfusion h
  | vbool b => exact Except.noConfusion h
  | vint n => exact Except.noConfusion h
  | vfloat q => exact Except.noConfusion h
  | vstr s => exact Except.noConfusion h
  | vlist xs => exact Except.noConfusion h

/-- The mock result of `generate_digital_human_video` contains neither a
`success` nor a `data` key. -/
theorem dh_result_keys (td r : Value) (h : generate_digital_human_video td = .ok r) :
    pySubscript r "success" = .error (.keyError "success") ∧
    pySubscript r "data" = .error (.keyError "data") := by
  cases td with
  | vdict d =>
    rw [dh_vdict] at h
    cases hsl : pySliceTo50 ((dlookup d "script").getD (.vstr "")) with
    | error e =>
      rw [hsl] at h
      exact Except.noConfusion h
    | ok sv =>
      rw [hsl] at h
      simp only [Except.bind, Except.ok.injEq] at h
      subst h
      exact ⟨rfl, rfl⟩
  | vnull => exact Except.noConfusion h
  | vbool b => exact Except.noConfusion h
  | vint n => exact Except.noConfusion h
  | vfloat q => exact Except.noConfusion h
  | vstr s => exact Except.noConfusion h
  | vlist xs => exact Except.noConfusion h

/-! ## Claim theorems -/

/-- C1: the claim says a valid recognized-type task gets exactly one handler
invocation and exactly one terminal Status Record. On the code, one pass of
the worker loop on such a task deletes its pending key and then raises
`NameError` — line 231 calls `process_task`, a name defined nowhere in the
module (the dispatcher is `process_video_task`) — caught at the loop
boundary: no handler runs, no dispatch event occurs, and no status record
is written. -/
theorem C1_valid_task_no_handler_no_status :
    run_worker_pass 0
      [("pending_task:t1",
        StoredStr.ok (.vdict [("task_id", .vstr "t1"), ("type", .vstr "video_generation"),
                              ("prompt", .vstr "a cat")]), none)] =
      ([], [Event.del "pending_task:t1"],
       some (.nameError "name 'process_task' is not defined")) := rfl

/-- C2 counterexample: a pending entry whose value fails to parse is *not*
removed (the claim says it is): `json.loads` on line 228 raises before the
delete on line 229, the pass aborts, and the later key `pending_task:b` of
the same pass is not processed either — the final store is unchanged. -/
theorem C2_counterexample_malformed_key_kept :
    run_worker_pass 0
      [("pending_task:a", StoredStr.bad "not-json", none),
       ("pending_task:b",
        StoredStr.ok (.vdict [("task_id", .vstr "b"), ("type", .vstr "video_generation")]), none)] =
      ([("pending_task:a", StoredStr.bad "not-json", none),
        ("pending_task:b",
         StoredStr.ok (.vdict [("task_id", .vstr "b"), ("type", .vstr "video_generation")]), none)],
       [], some (.jsonDecodeError "not-json")) := rfl

/-- C2 amended: an absent or empty queue value is deleted and the scan
continues with the remaining keys; a nonempty value that fails to parse
raises out of the `for` loop — the key is *not* removed, the rest of the
pass is not processed, and the exception is the one caught (only) at the
worker-loop boundary. -/
theorem C2_amended_malformed_entry_behaviour :
    ∀ (ptask : Ptask) (now : Rat) (store : Store) (k : String) (ks : List String),
    (storeGet store k = none →
      scanKeys ptask now store (k :: ks) =
        ((scanKeys ptask now (storeDel store k) ks).1,
         Event.del k :: (scanKeys ptask now (storeDel store k) ks).2.1,
         (scanKeys ptask now (storeDel store k) ks).2.2)) ∧
    (storeGet store k = some (.bad "") →
      scanKeys ptask now store (k :: ks) =
        ((scanKeys ptask now (storeDel store k) ks).1,
         Event.del k :: (scanKeys ptask now (storeDel store k) ks).2.1,
         (scanKeys ptask now (storeDel store k) ks).2.2)) ∧
    (∀ s, storeGet store k = some (.bad s) → s ≠ "" →
      scanKeys ptask now store (k :: ks) = (store, [], some (.jsonDecodeError s))) := by
  intro ptask now store k ks
  refine ⟨fun h => ?_, fun h => ?_, fun s h hs => ?_⟩
  · simp only [scanKeys, h]
  · simp only [scanKeys, h, storedTruthy]
    simp
  · have hs' : (s != "") = true := by simpa using hs
    simp only [scanKeys, h, storedTruthy, hs']
    simp

/-- C2 amended, witness: on a concrete store holding one malformed entry the
key survives the pass and the pass aborts with the decode error. -/
theorem C2_amended_witness :
    scanKeys the_process_task 0 [("pending_task:a", StoredStr.bad "x", none)] ["pending_task:a"] =
      ([("pending_task:a", StoredStr.bad "x", none)], [], some (.jsonDecodeError "x")) :=
  (C2_amended_malformed_entry_behaviour the_process_task 0
    [("pending_task:a", StoredStr.bad "x", none)] "pending_task:a" []).2.2 "x" rfl (by decide)

/-- C3 counterexample: after one scan/dispatch cycle on the enqueued
`image_generation` task for `t1`, the claim says `task:t1` holds a completed
record; on the code no `task:t1` key exists at all (and `pending_task:t1`
was deleted). -/
theorem C3_counterexample_no_completed_record :
    let out := run_worker_pass 0
      [("pending_task:t1",
        StoredStr.ok (.vdict [("task_id", .vstr "t1"), ("type", .vstr "image_generation"),
                              ("prompt", .vstr "a cat")]), none)]
    storeGet out.1 "task:t1" = none ∧ storeGet out.1 "pending_task:t1" = none :=
  ⟨rfl, rfl⟩

/-- C3 amended: after one cycle `pending_task:t1` no longer exists, but no
record is written under `task:t1` — the loop's dispatch call raises
`NameError` (`process_task` is undefined). Moreover `process_video_task`,
the dispatcher the loop was meant to call, does not recognize
`image_generation` at all: run on the same task it records a *failed*
status, progress 0, error `未知任务类型: image_generation`, not a completed one. -/
theorem C3_amended_image_generation_outcome :
    run_worker_pass 0
      [("pending_task:t1",
        StoredStr.ok (.vdict [("task_id", .vstr "t1"), ("type", .vstr "image_generation"),
                              ("prompt", .vstr "a cat")]), none)] =
      ([], [Event.del "pending_task:t1"],
       some (.nameError "name 'process_task' is not defined")) ∧
    process_video_task [] 0
      (.vdict [("task_id", .vstr "t1"), ("type", .vstr "image_generation"),
               ("prompt", .vstr "a cat")]) =
      .ok [⟨.vstr "t1", "failed", 0, none, some (.vstr "未知任务类型: image_generation")⟩] :=
  ⟨rfl, rfl⟩

/-- C8: the Status Recorder is idempotent modulo timestamp. The records
built by `update_task_status` from equal arguments at two times agree on
every field except `timestamp`; writing twice stores, under
`task:<task_id>`, the serialized second record with the fixed TTL 3600,
wholesale-overwriting the first; and no other key of the store is touched. -/
theorem C8_status_recorder_idempotent (tid : Value) (st : String) (p : Nat)
    (r e : Option Value) (t1 t2 : Rat) (store : Store) :
    ((mk_status_data tid st p r e t1).task_id = (mk_status_data tid st p r e t2).task_id ∧
     (mk_status_data tid st p r e t1).status = (mk_status_data tid st p r e t2).status ∧
     (mk_status_data tid st p r e t1).progress = (mk_status_data tid st p r e t2).progress ∧
     (mk_status_data tid st p r e t1).result = (mk_status_data tid st p r e t2).result ∧
     (mk_status_data tid st p r e t1).error = (mk_status_data tid st p r e t2).error) ∧
    storeGet (update_task_status t2 (update_task_status t1 store tid st p r e) tid st p r e)
        ("task:" ++ pyStr tid) =
      some (.ok (status_data_json (mk_status_data tid st p r e t2))) ∧
    storeTTLOf (update_task_status t2 (update_task_status t1 store tid st p r e) tid st p r e)
        ("task:" ++ pyStr tid) = some (some 3600) ∧
    (∀ k, k ≠ "task:" ++ pyStr tid →
      storeGet (update_task_status t2 (update_task_status t1 store tid st p r e) tid st p r e) k =
        storeGet store k) := by
  refine ⟨⟨rfl, rfl, rfl, rfl, rfl⟩, ?_, ?_, ?_⟩
  · exact storeGet_cons_eq _ _ _ (by simp)
  · simp [update_task_status, storeSetex, storeTTLOf]
  · intro k hk
    have hne : ¬((("task:" ++ pyStr tid), (StoredStr.ok (status_data_json
        (mk_status_data tid st p r e t2))), some (3600 : Nat)).1 == k) = true := by
      simp only [beq_iff_eq]
      exact fun hh => hk hh.symm
    have hne1 : ¬((("task:" ++ pyStr tid), (StoredStr.ok (status_data_json
        (mk_status_data tid st p r e t1))), some (3600 : Nat)).1 == k) = true := by
      simp only [beq_iff_eq]
      exact fun hh => hk hh.symm
    show storeGet (("task:" ++ pyStr tid, _, some 3600) ::
      storeDel (update_task_status t1 store tid st p r e) ("task:" ++ pyStr tid)) k = storeGet store k
    rw [storeGet_cons_ne _ _ _ hne,
        storeGet_storeDel_ne _ _ _ hk]
    show storeGet (("task:" ++ pyStr tid, _, some 3600) ::
      storeDel store ("task:" ++ pyStr tid)) k = storeGet store k
    rw [storeGet_cons_ne _ _ _ hne1,
        storeGet_storeDel_ne _ _ _ hk]

/-- C8 witness: the recorder theorem applied at concrete arguments; the
untouched key `other` keeps its entry across the double write. -/
theorem C8_witness :
    ((mk_status_data (.vstr "t8") "completed" 100 (some (.vdict [])) none 0).task_id =
       (mk_status_data (.vstr "t8") "completed" 100 (some (.vdict [])) none 1).task_id) ∧
    storeGet (update_task_status 1 (update_task_status 0 [("other", StoredStr.bad "", none)]
        (.vstr "t8") "completed" 100 (some (.vdict [])) none)
        (.vstr "t8") "completed" 100 (some (.vdict [])) none) ("task:" ++ pyStr (.vstr "t8")) =
      some (.ok (status_data_json (mk_status_data (.vstr "t8") "completed" 100
        (some (.vdict [])) none 1))) ∧
    storeGet (update_task_status 1 (update_task_status 0 [("other", StoredStr.bad "", none)]
        (.vstr "t8") "completed" 100 (some (.vdict [])) none)
        (.vstr "t8") "completed" 100 (some (.vdict [])) none) "other" =
      storeGet [("other", StoredStr.bad "", none)] "other" := by
  have h := C8_status_recorder_idempotent (.vstr "t8") "completed" 100 (some (.vdict [])) none
    0 1 [("other", StoredStr.bad "", none)]
  exact ⟨h.1.1, h.2.1, h.2.2.2 "other" (by decide)⟩

/-- C9: the loop never exits, sleeps a fixed 1 second per iteration
regardless of what the pass did, and a pass-level exception is returned as
a caught-and-logged value while the iteration still completes normally. -/
theorem C9_loop_sleeps_and_catches :
    ∀ (ptask : Ptask) (now : Rat) (n : Nat) (store : Store),
    run_worker_sleeps ptask now n store = List.replicate n 1 ∧
    (∀ s evs e, run_worker_scan ptask now store = (s, evs, some e) →
      run_worker_iteration ptask now store = ((s, evs, some e), 1)) := by
  intro ptask now n store
  constructor
  · induction n generalizing store with
    | zero => rfl
    | succ m ih =>
      simp only [run_worker_sleeps, run_worker_iteration, List.replicate_succ]
      rw [ih]
  · intro s evs e h
    rw [run_worker_iteration, h]

/-- C9 witness: two iterations on a store holding a malformed entry sleep
one second each, and the decode error is caught, not propagated. -/
theorem C9_witness :
    run_worker_sleeps the_process_task 0 2 [("pending_task:z", StoredStr.bad "zz", none)] =
      [1, 1] ∧
    run_worker_iteration the_process_task 0 [("pending_task:z", StoredStr.bad "zz", none)] =
      (([("pending_task:z", StoredStr.bad "zz", none)], [], some (.jsonDecodeError "zz")), 1) := by
  constructor
  · exact (C9_loop_sleeps_and_catches the_process_task 0 2
      [("pending_task:z", StoredStr.bad "zz", none)]).1
  · exact (C9_loop_sleeps_and_catches the_process_task 0 2
      [("pending_task:z", StoredStr.bad "zz", none)]).2 _ _ _ rfl

/-- Reduction of an Except bind whose first component succeeded. -/
theorem exBindOk {a : Type} {b : Type} (x : a) (f : a -> Except PyError b) :
    (Except.ok x : Except PyError a) >>= f = f x := rfl

/-- A value that compares equal to a string literal under Python `==` is
that string. -/
theorem pyEqStr_true {v : Value} {s : String} (h : pyEqStr v s = true) : v = .vstr s := by
  cases v <;> simp_all [pyEqStr]

/-- C4 counterexample: the claim says a Task Record with missing `task_id`
is silently dropped with no Status Record written. On the code, a
`video_generation` task without `task_id` proceeds with `task_id = None`,
fails on `result["success"]`, and `update_task_status(None, ...)` stores a
record under the literal key `task:None`. -/
theorem C4_counterexample_missing_id_still_writes :
    process_video_task [] 0 (.vdict [("type", .vstr "video_generation"), ("prompt", .vstr "a cat")]) =
      .ok [⟨.vnull, "failed", 0, none, some (.vstr "'success'")⟩] ∧
    ("task:" ++ pyStr Value.vnull = "task:None") ∧
    storeGet (update_task_status 0 [] .vnull "failed" 0 none (some (.vstr "'success'"))) "task:None" =
      some (.ok (status_data_json
        (mk_status_data .vnull "failed" 0 none (some (.vstr "'success'")) 0))) := by
  refine ⟨rfl, ?_, ?_⟩
  · rw [pyStr_vnull]
    rfl
  · rw [update_task_status, storeSetex, pyStr_vnull]
    exact storeGet_cons_eq _ _ _ (by decide)

/-- C4 amended: a Task Record with missing `task_id` is *not* dropped:
`process_video_task` runs with `task_id = None`, performs exactly one
status write keyed by it, and the store key that write uses is the literal
`task:None`. -/
theorem C4_amended_missing_id_writes_under_task_None :
    ∀ (fs : List String) (now : Rat) (d : List (String × Value)),
    dlookup d "task_id" = none →
    ∃ w : StatusWrite, process_video_task fs now (.vdict d) = .ok [w] ∧
      w.task_id = .vnull ∧ "task:" ++ pyStr w.task_id = "task:None" := by
  intro fs now d h
  have hnull : dGet d "task_id" = Value.vnull := by
    unfold dGet
    rw [h]
    rfl
  obtain ⟨w, hw, hid⟩ := process_try_single fs now (.vdict d) (dGet d "type") (dGet d "task_id")
  refine ⟨w, ?_, ?_, ?_⟩
  · rw [process_video_task_vdict, hw]
  · rw [hid, hnull]
  · rw [hid, hnull, pyStr_vnull]
    rfl

/-- C4 amended, witness: a concrete `digital_human` task without `task_id`
gets its single write keyed under `task:None`. -/
theorem C4_amended_witness :
    ∃ w : StatusWrite,
      process_video_task [] 0 (.vdict [("type", .vstr "digital_human")]) = .ok [w] ∧
      w.task_id = .vnull ∧ "task:" ++ pyStr w.task_id = "task:None" :=
  C4_amended_missing_id_writes_under_task_None [] 0 [("type", .vstr "digital_human")] rfl

/-- C5 counterexample: for the unrecognized type `bogus` the recorded error
is the Chinese message `未知任务类型: bogus`, not the claim's literal
"unknown task type: bogus". -/
theorem C5_counterexample_message_is_chinese :
    process_video_task [] 0 (.vdict [("task_id", .vstr "t9x"), ("type", .vstr "bogus")]) =
      .ok [⟨.vstr "t9x", "failed", 0, none, some (.vstr "未知任务类型: bogus")⟩] ∧
    ("未知任务类型: bogus" ≠ "unknown task type: bogus") :=
  ⟨rfl, by decide⟩

/-- C5 amended: for every Task Record whose `type` matches none of the four
recognized strings (including a missing `type`, which reads as `None`),
dispatch returns control normally and the single status write has
`status = failed`, `progress = 0`, and error `未知任务类型: <value>`, the
Python rendering of the offending type value appended to the (Chinese)
prefix. -/
theorem C5_amended_unknown_type_failed_status :
    ∀ (fs : List String) (now : Rat) (d : List (String × Value)),
    pyEqStr (dGet d "type") "video_generation" = false →
    pyEqStr (dGet d "type") "video_analysis" = false →
    pyEqStr (dGet d "type") "digital_human" = false →
    pyEqStr (dGet d "type") "video_processing" = false →
    process_video_task fs now (.vdict d) =
      .ok [⟨dGet d "task_id", "failed", 0, none,
            some (.vstr ("未知任务类型: " ++ pyStr (dGet d "type")))⟩] := by
  intro fs now d h1 h2 h3 h4
  have hdis : process_video_task_dispatch fs now (.vdict d) (dGet d "type") =
      .error (.valueError ("未知任务类型: " ++ pyStr (dGet d "type"))) := by
    unfold process_video_task_dispatch
    simp [h1, h2, h3, h4]
  rw [process_video_task_vdict, try_dispatch_error _ _ _ _ _ _ hdis]
  rfl

/-- C5 amended, witness: the unrecognized type `mystery` at a concrete task. -/
theorem C5_amended_witness :
    process_video_task [] 0 (.vdict [("task_id", .vstr "t5w"), ("type", .vstr "mystery")]) =
      .ok [⟨.vstr "t5w", "failed", 0, none, some (.vstr "未知任务类型: mystery")⟩] :=
  C5_amended_unknown_type_failed_status [] 0
    [("task_id", .vstr "t5w"), ("type", .vstr "mystery")] rfl rfl rfl rfl

/-- C6: the pending key is deleted immediately upon read, before the task is
dispatched: for any binding of the `process_task` global, whenever a scan
step reads a key whose value parses, the very first store event of that
step is the `DELETE` of that key — any dispatch or status-write event comes
strictly after it. Hence a terminal Status Record can only ever be written
after its task's pending key is gone. -/
theorem C6_delete_precedes_dispatch :
    ∀ (ptask : Ptask) (now : Rat) (store : Store) (k : String) (ks : List String) (v : Value),
    storeGet store k = some (.ok v) →
    ∃ rest, (scanKeys ptask now store (k :: ks)).2.1 = Event.del k :: rest := by
  intro ptask now store k ks v h
  cases ptask with
  | none =>
    refine ⟨[], ?_⟩
    simp [scanKeys, h, storedTruthy]
  | some f =>
    cases hf : f v with
    | error e =>
      refine ⟨[Event.dispatch v], ?_⟩
      simp [scanKeys, h, storedTruthy, hf]
    | ok ws =>
      refine ⟨Event.dispatch v :: (ws.map Event.statusWrite ++
        (scanKeys (some f) now (apply_status_writes now (storeDel store k) ws) ks).2.1), ?_⟩
      simp [scanKeys, h, storedTruthy, hf]

/-- C6 witness: a concrete scan step on a parsed entry emits the delete of
its key first. -/
theorem C6_witness :
    ∃ rest, (scanKeys (some (fun _ => Except.ok [])) 0
      [("pending_task:w6", StoredStr.ok .vnull, none)] ["pending_task:w6"]).2.1 =
      Event.del "pending_task:w6" :: rest :=
  C6_delete_precedes_dispatch (some (fun _ => Except.ok [])) 0
    [("pending_task:w6", StoredStr.ok .vnull, none)] "pending_task:w6" [] .vnull rfl

/-- C7: a fault raised inside a handler is caught at the dispatcher boundary
(line 46) and becomes the single failed status write whose `error` is the
fault's `str` — `process_video_task` itself returns normally, so the worker
does not terminate. In particular a `video_processing` task whose
`input_path` does not exist raises `FileNotFoundError` with the missing
path in its message. -/
theorem C7_handler_fault_caught_as_failed :
    (∀ (fs : List String) (now : Rat) (d : List (String × Value)) (e : PyError),
      process_video_task_dispatch fs now (.vdict d) (dGet d "type") = .error e →
      process_video_task fs now (.vdict d) =
        .ok [⟨dGet d "task_id", "failed", 0, none, some (.vstr (strOfErr e))⟩]) ∧
    (∀ (fs : List String) (now : Rat) (d : List (String × Value)),
      os_path_exists fs ((dlookup d "input_path").getD Value.vnull) = false →
      process_video_file fs now (.vdict d) =
        .error (.fileNotFoundError
          ("输入文件不存在: " ++ pyStr ((dlookup d "input_path").getD Value.vnull)))) := by
  constructor
  · intro fs now d e hdis
    rw [process_video_task_vdict, try_dispatch_error _ _ _ _ _ _ hdis]
  · intro fs now d h
    have hb : (!pyTruthy ((dlookup d "input_path").getD Value.vnull) ||
        !os_path_exists fs ((dlookup d "input_path").getD Value.vnull)) = true := by
      rw [h]
      simp
    unfold process_video_file
    simp only [pyGetAttrD, pyGetAttr, exBindOk]
    simp [hb]

/-- C7 witness: the scenario task — `video_processing` with a nonexistent
input path — yields exactly one failed write whose error carries the
missing path, and the handler's own fault is that `FileNotFoundError`. -/
theorem C7_witness :
    process_video_task [] 0 (.vdict [("task_id", .vstr "t7"), ("type", .vstr "video_processing"),
        ("input_path", .vstr "/missing.mp4")]) =
      .ok [⟨.vstr "t7", "failed", 0, none, some (.vstr "输入文件不存在: /missing.mp4")⟩] ∧
    process_video_file [] 0 (.vdict [("task_id", .vstr "t7"), ("type", .vstr "video_processing"),
        ("input_path", .vstr "/missing.mp4")]) =
      .error (.fileNotFoundError "输入文件不存在: /missing.mp4") := by
  constructor
  · exact C7_handler_fault_caught_as_failed.1 [] 0
      [("task_id", .vstr "t7"), ("type", .vstr "video_processing"),
       ("input_path", .vstr "/missing.mp4")]
      (.fileNotFoundError "输入文件不存在: /missing.mp4") rfl
  · exact C7_handler_fault_caught_as_failed.2 [] 0
      [("task_id", .vstr "t7"), ("type", .vstr "video_processing"),
       ("input_path", .vstr "/missing.mp4")] rfl

/-- C10: a `completed` status is written only when the handler result has a
truthy `success` key and a `data` key; the mock results of
`generate_video_with_sora` and `generate_digital_human_video` contain
neither key, so every normally-returning `video_generation` or
`digital_human` task is recorded as failed (error `'success'`, the `str` of
the `KeyError`). -/
theorem C10_completed_needs_success_and_data :
    (∀ (fs : List String) (now : Rat) (td tt tid : Value) (w : StatusWrite),
      w ∈ process_video_task_try fs now td tt tid → w.status = "completed" →
      ∃ r s d2, process_video_task_dispatch fs now td tt = .ok r ∧
        pySubscript r "success" = .ok s ∧ pyTruthy s = true ∧
        pySubscript r "data" = .ok d2 ∧
        w = ⟨tid, "completed", 100, some d2, none⟩) ∧
    (∀ (td r : Value), generate_video_with_sora td = .ok r →
      pySubscript r "success" = .error (.keyError "success") ∧
      pySubscript r "data" = .error (.keyError "data")) ∧
    (∀ (td r : Value), generate_digital_human_video td = .ok r →
      pySubscript r "success" = .error (.keyError "success") ∧
      pySubscript r "data" = .error (.keyError "data")) ∧
    (∀ (fs : List String) (now : Rat) (d : List (String × Value)),
      pyEqStr (dGet d "type") "video_generation" = true →
      process_video_task fs now (.vdict d) =
        .ok [⟨dGet d "task_id", "failed", 0, none, some (.vstr "'success'")⟩]) ∧
    (∀ (fs : List String) (now : Rat) (d : List (String × Value)) (r : Value),
      pyEqStr (dGet d "type") "digital_human" = true →
      generate_digital_human_video (.vdict d) = .ok r →
      process_video_task fs now (.vdict d) =
        .ok [⟨dGet d "task_id", "failed", 0, none, some (.vstr "'success'")⟩]) := by
  refine ⟨?_, sora_result_keys, dh_result_keys, ?_, ?_⟩
  · intro fs now td tt tid w hw hst
    unfold process_video_task_try at hw
    split at hw
    next e heq =>
      simp only [List.mem_singleton] at hw
      subst hw
      exact absurd (show "failed" = "completed" from hst) (by decide)
    next r heq =>
      unfold process_video_task_result at hw
      split at hw
      next e heq2 =>
        simp only [List.mem_singleton] at hw
        subst hw
        exact absurd (show "failed" = "completed" from hst) (by decide)
      next s heq2 =>
        split at hw
        next htr =>
          split at hw
          next e heq3 =>
            simp only [List.mem_singleton] at hw
            subst hw
            exact absurd (show "failed" = "completed" from hst) (by decide)
          next d2 heq3 =>
            simp only [List.mem_singleton] at hw
            subst hw
            exact ⟨r, s, d2, heq, heq2, htr, heq3, rfl⟩
        next hfl =>
          split at hw
          next e heq3 =>
            simp only [List.mem_singleton] at hw
            subst hw
            exact absurd (show "failed" = "completed" from hst) (by decide)
          next errv heq3 =>
            simp only [List.mem_singleton] at hw
            subst hw
            exact absurd (show "failed" = "completed" from hst) (by decide)
  · intro fs now d h
    have hdis : process_video_task_dispatch fs now (.vdict d) (dGet d "type") =
        .ok (.vdict
          [("video_url", .vstr ("/generated/" ++ pyStr (dGet d "task_id") ++ ".mp4")),
           ("thumbnail_url", .vstr ("/thumbnails/" ++ pyStr (dGet d "task_id") ++ ".jpg")),
           ("duration", (dlookup d "duration").getD (.vint 5)),
           ("resolution", .vstr "1920x1080"),
           ("format", .vstr "mp4")]) := by
      rw [pyEqStr_true h]
      exact sora_vdict d
    rw [process_video_task_vdict, try_dispatch_ok _ _ _ _ _ _ hdis,
        result_no_success_key _ _ (sora_result_keys (.vdict d) _ (sora_vdict d)).1]
  · intro fs now d r h hdh
    have hdis : process_video_task_dispatch fs now (.vdict d) (dGet d "type") = .ok r := by
      rw [pyEqStr_true h]
      exact hdh
    rw [process_video_task_vdict, try_dispatch_ok _ _ _ _ _ _ hdis,
        result_no_success_key _ _ (dh_result_keys (.vdict d) r hdh).1]

/-- C10 witness: a concrete `video_generation` task that returns normally is
recorded as failed with error `'success'`. -/
theorem C10_witness :
    process_video_task [] 0 (.vdict [("task_id", .vstr "t10"), ("type", .vstr "video_generation")]) =
      .ok [⟨.vstr "t10", "failed", 0, none, some (.vstr "'success'")⟩] :=
  C10_completed_needs_success_and_data.2.2.2.1 [] 0
    [("task_id", .vstr "t10"), ("type", .vstr "video_generation")] rfl
